import Mathlib

/-!
# Verification of the Salesforce token-lifecycle-and-call component

Shallow embedding of `src/app/salesforce_client.py`.  The module holds one
piece of mutable state, the cached access token `_SF_ACCESS_TOKEN`, and three
functions:

* `_get_salesforce_token`   (lines 19-47)  — client-credentials token fetch,
* `_call_salesforce_terminal_action` (lines 50-75) — action POST with one
  401-triggered re-authentication retry,
* `update_serial_in_salesforce` (lines 78-118) — payload construction and
  response normalization (the spec's `invoke`).

The network is modelled as an oracle: `Env.tokenResp i` is the outcome of the
`i`-th POST to the token endpoint and `Env.actionResp i` the outcome of the
`i`-th POST to the action endpoint (a transport failure — httpx timeout or
connection error — or an HTTP response).  Python exceptions are modelled with
`Except`: every raised `RuntimeError` and every httpx exception becomes an
`SfError` value, and state updates performed before a raise are kept (Python
exceptions do not roll state back).

JSON bodies are modelled at the granularity the code observes them:
a response body is `none` when `.json()` raises (body not parseable as JSON)
and otherwise a record of the optional fields the code reads.  A field that
is absent (or JSON `null`, which `dict.get` treats the same at the two sites
where it matters: `error_code` and `access_token` go through falsiness tests)
is `none`.  The `success` field is `Option Bool`: the code compares it with
`is True`, so any non-boolean JSON value behaves exactly like `none` here.
-/

namespace Mdw

/-- Python truthiness of an optional string (`if not x:`): `None` and the
empty string are falsy, every other string is truthy. -/
def pyTruthy : Option String → Bool
  | none => false
  | some s => !s.isEmpty

/-- Python `x or y` where `x` is an optional string (`dict.get` result) and
`y` a string: yields `y` when `x` is `None` or empty, else the string in `x`.
Models line 117: `sf_resp.get("error_code") or f"SF_{response.status_code}"`. -/
def pyOrStr (x : Option String) (y : String) : String :=
  match x with
  | some s => if s.isEmpty then y else s
  | none => y

/-- The fields of an action-endpoint JSON body that
`update_serial_in_salesforce` reads.  `none` = field absent. -/
structure SfBody where
  success : Option Bool
  message : Option String
  caseId : Option String
  error_code : Option String
  deriving DecidableEq

/-- An HTTP response from the action endpoint: status code plus body,
`body = none` meaning `response.json()` raises (not parseable as JSON). -/
structure ActionResponse where
  status : Nat
  body : Option SfBody
  deriving DecidableEq

/-- The field of a token-endpoint JSON body that `_get_salesforce_token`
reads. -/
structure TokenBody where
  access_token : Option String
  deriving DecidableEq

/-- An HTTP response from the token endpoint, `body = none` meaning
`resp.json()` raises. -/
structure TokenResponse where
  status : Nat
  body : Option TokenBody
  deriving DecidableEq

/-- Outcome of one POST to the token endpoint: a transport-level failure
(httpx timeout / connection error) or an HTTP response. -/
inductive TokenOutcome where
  | transportFail
  | resp (r : TokenResponse)
  deriving DecidableEq

/-- Outcome of one POST to the action endpoint. -/
inductive ActionOutcome where
  | transportFail
  | resp (r : ActionResponse)
  deriving DecidableEq

/-- The Python exceptions that can escape the module's functions.
`configError` is the `RuntimeError` of line 27 (missing configuration),
`tokenFetchError` the `RuntimeError`s of lines 40 and 44 (non-200 token
response / missing or empty `access_token`), `jsonDecodeError` the error
`resp.json()` raises on an unparseable token body (line 42, uncaught), and
`transportError` any httpx transport exception. -/
inductive SfError where
  | configError
  | tokenFetchError
  | jsonDecodeError
  | transportError
  deriving DecidableEq

/-- The environment of one run: the two `os.getenv` configuration values
(lines 12-13) and the network oracle giving the outcome of each POST to the
token endpoint and to the action endpoint, indexed by how many such POSTs
happened before. -/
structure Env where
  SF_CLIENT_ID : Option String
  SF_CLIENT_SECRET : Option String
  tokenResp : Nat → TokenOutcome
  actionResp : Nat → ActionOutcome

/-- The payload built by `update_serial_in_salesforce` (lines 84-88). -/
structure Payload where
  serialNumber : String
  role : String
  technicianName : String
  deriving DecidableEq

/-- One POST to the action endpoint as observed on the wire: the bearer token
placed in the `Authorization` header and the JSON payload. -/
structure SentReq where
  auth : String
  payload : Payload
  deriving DecidableEq

/-- Program state threaded through a run: the module-level token cache
`_SF_ACCESS_TOKEN` (line 16), plus the observable trace — how many token
POSTs were made (`nTok`, which indexes `Env.tokenResp`) and the list of
action POSTs made so far (`sent`, whose length indexes `Env.actionResp`). -/
structure St where
  SF_ACCESS_TOKEN : Option String
  nTok : Nat
  sent : List SentReq
  deriving DecidableEq

/-- The arguments of `update_serial_in_salesforce` (line 78); the spec's
`ActionRequest`. -/
structure ActionRequest where
  serial : String
  technicianName : String
  role : String
  deriving DecidableEq

/-- Lines 35-45 of `_get_salesforce_token`: what one POST to the token
endpoint produces.  A transport failure raises; a status other than 200
raises the line-39 `RuntimeError` (the code tests `!= 200`, not "non-2xx");
`resp.json()` raising on an unparseable body is uncaught (line 42); `if not
access_token` (line 43-44) raises when the field is absent, `null`, or the
empty string; otherwise the token is returned. -/
def parse_token_outcome : TokenOutcome → Except SfError String
  | .transportFail => .error .transportError
  | .resp resp =>
    if resp.status ≠ 200 then .error .tokenFetchError
    else
      match resp.body with
      | none => .error .jsonDecodeError
      | some token_json =>
        match token_json.access_token with
        | none => .error .tokenFetchError
        | some access_token =>
          if access_token.isEmpty then .error .tokenFetchError
          else .ok access_token

/-- `_get_salesforce_token` (lines 19-47).  Checks configuration (line 26)
before any network call, then POSTs to the token endpoint once (consuming
index `st.nTok` of the oracle) and classifies the outcome with
`parse_token_outcome`; on success the token is cached (line 46), on any
raise the cache is left untouched. -/
def get_salesforce_token (env : Env) (st : St) : Except SfError String × St :=
  if !pyTruthy env.SF_CLIENT_ID || !pyTruthy env.SF_CLIENT_SECRET then
    (.error .configError, st)
  else
    match parse_token_outcome (env.tokenResp st.nTok) with
    | .error e => (.error e, { st with nTok := st.nTok + 1 })
    | .ok access_token =>
      (.ok access_token,
       { st with nTok := st.nTok + 1, SF_ACCESS_TOKEN := some access_token })

/-- Lines 56-59 of `_call_salesforce_terminal_action`:
`if not _SF_ACCESS_TOKEN: _SF_ACCESS_TOKEN = await _get_salesforce_token()`,
then the cached token is used in the `Authorization` header.  Returns the
token actually used (the spec's Token Provider `get()`). -/
def ensure_token (env : Env) (st : St) : Except SfError String × St :=
  match st.SF_ACCESS_TOKEN with
  | some t => if t.isEmpty then get_salesforce_token env st else (.ok t, st)
  | none => get_salesforce_token env st

/-- Append one action-endpoint POST (bearer token + payload) to the trace. -/
def record_send (st : St) (tok : String) (payload : Payload) : St :=
  { st with sent := st.sent ++ [{ auth := tok, payload := payload }] }

/-- `_call_salesforce_terminal_action` (lines 50-75).  Ensures a token is
cached (lines 56-59), POSTs the payload with the bearer header (line 67); on
a 401 fetches a fresh token (line 71 — note: `_get_salesforce_token` is
called directly, which always fetches), rebuilds the header with it
(line 72) and resends the identical payload exactly once (line 73); the
retried response is returned whatever its status. -/
def call_salesforce_terminal_action (env : Env) (payload : Payload) (st : St) :
    Except SfError ActionResponse × St :=
  match ensure_token env st with
  | (.error e, st1) => (.error e, st1)
  | (.ok tok, st1) =>
    match env.actionResp st1.sent.length, record_send st1 tok payload with
    | .transportFail, st2 => (.error .transportError, st2)
    | .resp resp, st2 =>
      if resp.status = 401 then
        match get_salesforce_token env st2 with
        | (.error e, st3) => (.error e, st3)
        | (.ok tok2, st3) =>
          match env.actionResp st3.sent.length, record_send st3 tok2 payload with
          | .transportFail, st4 => (.error .transportError, st4)
          | .resp resp2, st4 => (.ok resp2, st4)
      else (.ok resp, st2)

/-- The payload built on lines 84-88: direct field mapping from the
arguments, preserving the wire-format field names. -/
def mkPayload (req : ActionRequest) : Payload :=
  { serialNumber := req.serial, role := req.role, technicianName := req.technicianName }

/-- The default success message of line 107. -/
def sfOkDefaultMsg : String := "Acción realizada correctamente."

/-- The invalid-JSON diagnostic of line 98, embedding the raw HTTP status. -/
def sfInvalidJsonMsg (status : Nat) : String :=
  s!"Salesforce devolvió una respuesta no válida (HTTP {status})"

/-- The default failure message of line 115, embedding the HTTP status. -/
def sfErrorDefaultMsg (status : Nat) : String :=
  s!"Error en Salesforce (HTTP {status})"

/-- The synthesized error code of line 117: fixed prefix `SF_` plus status. -/
def sfSynthCode (status : Nat) : String :=
  s!"SF_{status}"

/-- The normalized dict returned by `update_serial_in_salesforce`
(`salesforce_id` is the spec's `referenceId`).  `message` is always a string
here because in the model a body field is either absent or a string. -/
structure NormalizedResult where
  success : Bool
  message : String
  salesforce_id : Option String
  error_code : Option String
  deriving DecidableEq

/-- Lines 92-118 of `update_serial_in_salesforce`: normalization of the
final action-endpoint response.  Unparseable body → fixed `SF_INVALID_JSON`
failure (lines 93-101); status 200 with `success is True` → success result
(lines 104-110); otherwise failure with message/caseId from the body and
`error_code` from the body when truthy, else synthesized (lines 113-118). -/
def normalize_sf_response (response : ActionResponse) : NormalizedResult :=
  match response.body with
  | none =>
    { success := false
      message := sfInvalidJsonMsg response.status
      salesforce_id := none
      error_code := some "SF_INVALID_JSON" }
  | some sf_resp =>
    if response.status = 200 ∧ sf_resp.success = some true then
      { success := true
        message := sf_resp.message.getD sfOkDefaultMsg
        salesforce_id := sf_resp.caseId
        error_code := none }
    else
      { success := false
        message := sf_resp.message.getD (sfErrorDefaultMsg response.status)
        salesforce_id := sf_resp.caseId
        error_code := some (pyOrStr sf_resp.error_code (sfSynthCode response.status)) }

/-- `update_serial_in_salesforce` (lines 78-118), the spec's `invoke`:
builds the payload, performs the action call (with its one-retry logic) and
normalizes the response.  Exceptions raised below it (`Except.error`) are
not caught here — the only `try` in the function wraps `response.json()`,
which `normalize_sf_response` models. -/
def update_serial_in_salesforce (env : Env) (req : ActionRequest) (st : St) :
    Except SfError NormalizedResult × St :=
  match call_salesforce_terminal_action env (mkPayload req) st with
  | (.error e, st1) => (.error e, st1)
  | (.ok response, st1) => (.ok (normalize_sf_response response), st1)

/-- The value an `ActionOutcome` turns into when it is the outcome of the
retried request (lines 73-75): a transport failure raises, a response of any
status is returned as-is. -/
def outcome_result : ActionOutcome → Except SfError ActionResponse
  | .transportFail => .error .transportError
  | .resp r => .ok r

/-! ## Concrete fixtures used by witnesses and counterexamples -/

/-- A concrete request. -/
def reqW : ActionRequest := { serial := "SN1", technicianName := "Tec", role := "Limpieza" }

/-- Initial state with no cached token. -/
def stEmpty : St := { SF_ACCESS_TOKEN := none, nTok := 0, sent := [] }

/-- Initial state with the token `tok0` already cached. -/
def stTok : St := { SF_ACCESS_TOKEN := some "tok0", nTok := 0, sent := [] }

/-- State after one action POST with the cached token. -/
def stSent1 : St :=
  { SF_ACCESS_TOKEN := some "tok0", nTok := 0,
    sent := [{ auth := "tok0", payload := mkPayload reqW }] }

/-- Action body `{"success": true, "message": "ok", "caseId": "X"}`. -/
def bodyOkX : SfBody :=
  { success := some true, message := some "ok", caseId := some "X", error_code := none }

/-- Action body `{"success": true, "caseId": "X"}` (no message). -/
def bodyOkNoMsg : SfBody :=
  { success := some true, message := none, caseId := some "X", error_code := none }

/-- Action body `{"success": true, "caseId": "C1"}`. -/
def bodyOkC1 : SfBody :=
  { success := some true, message := none, caseId := some "C1", error_code := none }

/-- Action body `{"success": true, "message": "ok"}`. -/
def bodyOkNoCase : SfBody :=
  { success := some true, message := some "ok", caseId := none, error_code := none }

/-- Action body `{"message": "not found", "error_code": ""}`: the
`error_code` field is present but empty. -/
def bodyNotFoundEmptyCode : SfBody :=
  { success := none, message := some "not found", caseId := none, error_code := some "" }

/-- Action body `{"message": "not found", "error_code": "SF_RECORD_NOT_FOUND"}`. -/
def bodyNotFound : SfBody :=
  { success := none, message := some "not found", caseId := none,
    error_code := some "SF_RECORD_NOT_FOUND" }

/-- Token body `{"access_token": "tok201"}`. -/
def tokenBody201 : TokenBody := { access_token := some "tok201" }

/-- Token body `{"access_token": "tokX"}`. -/
def tokenBodyX : TokenBody := { access_token := some "tokX" }

/-- Token body `{"access_token": "tok1"}`. -/
def tokenBody1 : TokenBody := { access_token := some "tok1" }

/-- Token body `{"access_token": ""}`. -/
def tokenBodyEmpty : TokenBody := { access_token := some "" }

/-- Environment where the token endpoint answers 500: the fetch raises. -/
def envC1ce : Env :=
  { SF_CLIENT_ID := some "id", SF_CLIENT_SECRET := some "sec",
    tokenResp := fun _ => .resp { status := 500, body := none },
    actionResp := fun _ => .transportFail }

/-- Environment where the action endpoint answers 200 `success:true`. -/
def envC1w : Env :=
  { SF_CLIENT_ID := some "id", SF_CLIENT_SECRET := some "sec",
    tokenResp := fun _ => .transportFail,
    actionResp := fun _ => .resp { status := 200, body := some bodyOkX } }

/-- Environment where the action endpoint answers 200 `success:true` with a
`caseId`. -/
def envC2w : Env :=
  { SF_CLIENT_ID := some "id", SF_CLIENT_SECRET := some "sec",
    tokenResp := fun _ => .transportFail,
    actionResp := fun _ => .resp { status := 200, body := some bodyOkX } }

/-- Environment where the first action response is 401 and the re-auth token
fetch then fails with a 500. -/
def envC3ce : Env :=
  { SF_CLIENT_ID := some "id", SF_CLIENT_SECRET := some "sec",
    tokenResp := fun _ => .resp { status := 500, body := none },
    actionResp := fun _ => .resp { status := 401, body := none } }

/-- Environment where the first action response is 401, the fresh token
fetch succeeds with `tok1`, and the retried action call succeeds. -/
def envC3w : Env :=
  { SF_CLIENT_ID := some "id", SF_CLIENT_SECRET := some "sec",
    tokenResp := fun _ => .resp { status := 200, body := some tokenBody1 },
    actionResp := fun i =>
      if i = 0 then .resp { status := 401, body := none }
      else .resp { status := 200, body := some bodyOkC1 } }

/-- State after the 401-triggered re-authentication in `envC3w`. -/
def stC3mid : St :=
  { SF_ACCESS_TOKEN := some "tok1", nTok := 1,
    sent := [{ auth := "tok0", payload := mkPayload reqW }] }

/-- Environment where the action endpoint answers 200 `success:true` with a
`caseId` and no `message`. -/
def envC4w : Env :=
  { SF_CLIENT_ID := some "id", SF_CLIENT_SECRET := some "sec",
    tokenResp := fun _ => .transportFail,
    actionResp := fun _ => .resp { status := 200, body := some bodyOkNoMsg } }

/-- Environment where the action endpoint answers 404 with an `error_code`
field present but equal to the empty string. -/
def envC5ce : Env :=
  { SF_CLIENT_ID := some "id", SF_CLIENT_SECRET := some "sec",
    tokenResp := fun _ => .transportFail,
    actionResp := fun _ => .resp { status := 404, body := some bodyNotFoundEmptyCode } }

/-- Environment where the action endpoint answers 404 with
`{"message":"not found","error_code":"SF_RECORD_NOT_FOUND"}`. -/
def envC5w : Env :=
  { SF_CLIENT_ID := some "id", SF_CLIENT_SECRET := some "sec",
    tokenResp := fun _ => .transportFail,
    actionResp := fun _ => .resp { status := 404, body := some bodyNotFound } }

/-- Environment where the action endpoint answers 200 with a body that is
not parseable as JSON. -/
def envC6w : Env :=
  { SF_CLIENT_ID := some "id", SF_CLIENT_SECRET := some "sec",
    tokenResp := fun _ => .transportFail,
    actionResp := fun _ => .resp { status := 200, body := none } }

/-- Environment where the token endpoint answers 201 (a 2xx status other
than 200) with a well-formed token body. -/
def envC7ce : Env :=
  { SF_CLIENT_ID := some "id", SF_CLIENT_SECRET := some "sec",
    tokenResp := fun _ => .resp { status := 201, body := some tokenBody201 },
    actionResp := fun _ => .transportFail }

/-- Environment where the token endpoint answers 200 with token `tokX`. -/
def envC7w : Env :=
  { SF_CLIENT_ID := some "id", SF_CLIENT_SECRET := some "sec",
    tokenResp := fun _ => .resp { status := 200, body := some tokenBodyX },
    actionResp := fun _ => .transportFail }

/-- Environment whose network always fails: a cache hit must not touch it. -/
def envC8w : Env :=
  { SF_CLIENT_ID := some "id", SF_CLIENT_SECRET := some "sec",
    tokenResp := fun _ => .transportFail,
    actionResp := fun _ => .transportFail }

/-- Environment with BOTH configuration values absent whose action endpoint
answers 200 `success:true`. -/
def envC9w : Env :=
  { SF_CLIENT_ID := none, SF_CLIENT_SECRET := none,
    tokenResp := fun _ => .transportFail,
    actionResp := fun _ => .resp { status := 200, body := some bodyOkNoCase } }

/-- Environment where the token endpoint answers 200 with
`{"access_token": ""}`. -/
def envC10w : Env :=
  { SF_CLIENT_ID := some "id", SF_CLIENT_SECRET := some "sec",
    tokenResp := fun _ => .resp { status := 200, body := some tokenBodyEmpty },
    actionResp := fun _ => .transportFail }


/-! ## Helper lemmas about the embedded functions -/

/-- A successful token fetch bumps the token-POST counter, caches the token,
and leaves the action trace unchanged. -/
theorem get_token_ok_state (env : Env) (st : St) (tok : String) (st' : St)
    (h : get_salesforce_token env st = (.ok tok, st')) :
    st' = { st with nTok := st.nTok + 1, SF_ACCESS_TOKEN := some tok } := by
  unfold get_salesforce_token at h
  split at h
  · simp at h
  · cases hp : parse_token_outcome (env.tokenResp st.nTok) <;> simp [hp] at h
    obtain ⟨rfl, h2⟩ := h
    exact h2.symm

/-- A failed token fetch leaves the cache and the action trace unchanged. -/
theorem get_token_err_state (env : Env) (st : St) (e : SfError) (st' : St)
    (h : get_salesforce_token env st = (.error e, st')) :
    st'.SF_ACCESS_TOKEN = st.SF_ACCESS_TOKEN ∧ st'.sent = st.sent := by
  unfold get_salesforce_token at h
  split at h
  · simp at h
    rw [← h.2]
    exact ⟨rfl, rfl⟩
  · cases hp : parse_token_outcome (env.tokenResp st.nTok) <;> simp [hp] at h
    rw [← h.2]
    exact ⟨rfl, rfl⟩

/-- The token fetch never touches the action trace. -/
theorem get_token_sent (env : Env) (st : St) :
    ((get_salesforce_token env st).2).sent = st.sent := by
  unfold get_salesforce_token
  split
  · rfl
  · cases hp : parse_token_outcome (env.tokenResp st.nTok) <;> simp [hp]

/-- With a truthy cached token, `ensure_token` returns it and changes
nothing. -/
theorem ensure_token_cached (env : Env) (st : St) (t : String)
    (hc : st.SF_ACCESS_TOKEN = some t) (ht : t.isEmpty = false) :
    ensure_token env st = (.ok t, st) := by
  unfold ensure_token
  rw [hc]
  simp [ht]

/-- `ensure_token` never touches the action trace. -/
theorem ensure_token_sent (env : Env) (st : St) :
    ((ensure_token env st).2).sent = st.sent := by
  unfold ensure_token
  split
  · split
    · exact get_token_sent env st
    · rfl
  · exact get_token_sent env st

/-- First action response received and it is not a 401: the call returns it,
having sent exactly one request with the ensured token. -/
theorem call_first_not401 (env : Env) (payload : Payload) (st st1 : St)
    (tok : String) (r : ActionResponse)
    (h1 : ensure_token env st = (.ok tok, st1))
    (h2 : env.actionResp st1.sent.length = .resp r)
    (h3 : r.status ≠ 401) :
    call_salesforce_terminal_action env payload st =
      (.ok r, record_send st1 tok payload) := by
  unfold call_salesforce_terminal_action
  simp only [h1]
  simp only [h2]
  simp [h3]

/-- First response 401 and the fresh fetch succeeds: the call resends the
identical payload once with the new token and returns the second outcome,
whatever it is. -/
theorem call_first_401_fetch_ok (env : Env) (payload : Payload)
    (st st1 st2 : St) (tok tok2 : String) (r1 : ActionResponse)
    (h1 : ensure_token env st = (.ok tok, st1))
    (h2 : env.actionResp st1.sent.length = .resp r1)
    (h3 : r1.status = 401)
    (h4 : get_salesforce_token env (record_send st1 tok payload) = (.ok tok2, st2)) :
    call_salesforce_terminal_action env payload st =
      (outcome_result (env.actionResp st2.sent.length), record_send st2 tok2 payload) := by
  unfold call_salesforce_terminal_action
  simp only [h1]
  simp only [h2]
  simp only [h3, if_pos rfl]
  simp only [h4]
  cases ho : env.actionResp st2.sent.length <;> simp [outcome_result, ho]

/-- First response 401 and the fresh fetch fails: its exception propagates
out of the call without a resend. -/
theorem call_first_401_fetch_err (env : Env) (payload : Payload)
    (st st1 st2 : St) (tok : String) (r1 : ActionResponse) (e : SfError)
    (h1 : ensure_token env st = (.ok tok, st1))
    (h2 : env.actionResp st1.sent.length = .resp r1)
    (h3 : r1.status = 401)
    (h4 : get_salesforce_token env (record_send st1 tok payload) = (.error e, st2)) :
    call_salesforce_terminal_action env payload st = (.error e, st2) := by
  unfold call_salesforce_terminal_action
  simp only [h1]
  simp only [h2]
  simp only [h3, if_pos rfl]
  simp only [h4]
  simp

/-- `ensure_token` failing makes the call raise without any POST to the
action endpoint. -/
theorem call_ensure_err (env : Env) (payload : Payload) (st st1 : St)
    (e : SfError)
    (h1 : ensure_token env st = (.error e, st1)) :
    call_salesforce_terminal_action env payload st = (.error e, st1) := by
  unfold call_salesforce_terminal_action
  simp only [h1]

/-- A transport failure on the first action POST propagates out of the
call. -/
theorem call_first_transport (env : Env) (payload : Payload) (st st1 : St)
    (tok : String)
    (h1 : ensure_token env st = (.ok tok, st1))
    (h2 : env.actionResp st1.sent.length = .transportFail) :
    call_salesforce_terminal_action env payload st =
      (.error .transportError, record_send st1 tok payload) := by
  unfold call_salesforce_terminal_action
  simp only [h1]
  simp only [h2]

/-- `invoke` with a response from the call: the result is its
normalization. -/
theorem invoke_of_call_ok (env : Env) (req : ActionRequest) (st st2 : St)
    (resp : ActionResponse)
    (hc : call_salesforce_terminal_action env (mkPayload req) st = (.ok resp, st2)) :
    update_serial_in_salesforce env req st =
      (.ok (normalize_sf_response resp), st2) := by
  unfold update_serial_in_salesforce
  rw [hc]

/-- `invoke` with an exception from the call: the exception propagates
unchanged. -/
theorem invoke_of_call_err (env : Env) (req : ActionRequest) (st st2 : St)
    (e : SfError)
    (hc : call_salesforce_terminal_action env (mkPayload req) st = (.error e, st2)) :
    update_serial_in_salesforce env req st = (.error e, st2) := by
  unfold update_serial_in_salesforce
  rw [hc]

/-- The normalization invariant: `error_code` is set exactly on failure. -/
theorem normalize_invariant (resp : ActionResponse) :
    ((normalize_sf_response resp).error_code ≠ none) ↔
      ((normalize_sf_response resp).success = false) := by
  rcases resp with ⟨status, body⟩
  cases body with
  | none => simp [normalize_sf_response]
  | some b =>
    unfold normalize_sf_response
    split
    · simp
    · split <;> simp

/-- The action call makes at most two action-endpoint POSTs. -/
theorem call_sent_le (env : Env) (payload : Payload) (st : St) :
    ((call_salesforce_terminal_action env payload st).2).sent.length ≤
      st.sent.length + 2 := by
  rcases h1 : ensure_token env st with ⟨res1, st1⟩
  have hs1 : st1.sent = st.sent := by
    have h := ensure_token_sent env st
    rw [h1] at h
    exact h
  cases res1 with
  | error e =>
    rw [call_ensure_err env payload st st1 e h1]
    simp [hs1]
  | ok tok =>
    cases ho : env.actionResp st1.sent.length with
    | transportFail =>
      rw [call_first_transport env payload st st1 tok h1 ho]
      simp [record_send, hs1]
    | resp r =>
      by_cases h401 : r.status = 401
      · rcases h4 : get_salesforce_token env (record_send st1 tok payload) with ⟨res2, st2⟩
        have hs2 : st2.sent = (record_send st1 tok payload).sent := by
          have h := get_token_sent env (record_send st1 tok payload)
          rw [h4] at h
          exact h
        cases res2 with
        | error e =>
          rw [call_first_401_fetch_err env payload st st1 st2 tok r e h1 ho h401 h4]
          simp [hs2, record_send, hs1]
        | ok tok2 =>
          rw [call_first_401_fetch_ok env payload st st1 st2 tok tok2 r h1 ho h401 h4]
          simp [record_send, hs2, hs1]
      · rw [call_first_not401 env payload st st1 tok r h1 ho h401]
        simp [record_send, hs1]

/-- `invoke` never converts an exception into a result and never raises on a
response: its state is exactly the state the action call leaves. -/
theorem invoke_state_eq (env : Env) (req : ActionRequest) (st : St) :
    (update_serial_in_salesforce env req st).2 =
      (call_salesforce_terminal_action env (mkPayload req) st).2 := by
  unfold update_serial_in_salesforce
  rcases h : call_salesforce_terminal_action env (mkPayload req) st with ⟨res, st1⟩
  cases res <;> simp

/-! ## Claim theorems -/

/-- C2.  For every `NormalizedResult` that `invoke`
(`update_serial_in_salesforce`) returns, `error_code` is not `none` if and
only if `success` is `false`. -/
theorem invoke_error_code_iff_failure (env : Env) (req : ActionRequest)
    (st : St) (r : NormalizedResult) (st' : St)
    (h : update_serial_in_salesforce env req st = (.ok r, st')) :
    (r.error_code ≠ none) ↔ (r.success = false) := by
  unfold update_serial_in_salesforce at h
  rcases hc : call_salesforce_terminal_action env (mkPayload req) st with ⟨res, st1⟩
  cases res with
  | error e => simp only [hc] at h; simp at h
  | ok resp =>
    simp only [hc] at h
    simp at h
    rw [← h.1]
    exact normalize_invariant resp

/-- Witness for C2: a concrete run returning a success result. -/
theorem invoke_error_code_iff_failure_witness :
    ((NormalizedResult.mk true "ok" (some "X") none).error_code ≠ none) ↔
      ((NormalizedResult.mk true "ok" (some "X") none).success = false) :=
  invoke_error_code_iff_failure envC2w reqW stTok
    (NormalizedResult.mk true "ok" (some "X") none) stSent1 (by rfl)

/-- C4.  For every `invoke` call whose final downstream response has HTTP
status 200 and a JSON body whose `success` field is exactly `true`, `invoke`
returns success with the body's `message` (or the default confirmation
string when absent), the body's `caseId` as reference id (`none` when
absent) and no error code. -/
theorem invoke_success_normalization (env : Env) (req : ActionRequest)
    (st st2 : St) (resp : ActionResponse) (b : SfBody)
    (hc : call_salesforce_terminal_action env (mkPayload req) st = (.ok resp, st2))
    (hs : resp.status = 200) (hb : resp.body = some b)
    (ht : b.success = some true) :
    update_serial_in_salesforce env req st =
      (.ok { success := true, message := b.message.getD sfOkDefaultMsg,
             salesforce_id := b.caseId, error_code := none }, st2) := by
  rw [invoke_of_call_ok env req st st2 resp hc]
  simp [normalize_sf_response, hb, hs, ht]

/-- Witness for C4: a 200 `{"success":true,"caseId":"X"}` body yields
`{success:true, referenceId:"X", errorCode:none}` with the default
confirmation message. -/
theorem invoke_success_normalization_witness :
    update_serial_in_salesforce envC4w reqW stTok =
      (.ok { success := true, message := bodyOkNoMsg.message.getD sfOkDefaultMsg,
             salesforce_id := bodyOkNoMsg.caseId, error_code := none }, stSent1) :=
  invoke_success_normalization envC4w reqW stTok stSent1
    { status := 200, body := some bodyOkNoMsg } bodyOkNoMsg (by rfl) rfl rfl rfl

/-- C5 as stated is false: the claim says the result's `errorCode` is "the
body's `error_code` field if present, else a synthesized code", but the code
uses Python `or`, so an `error_code` that is present-but-empty is replaced
by the synthesized `SF_<status>` code.  Concretely: a 404 response whose
body has `error_code: ""` yields `errorCode = "SF_404"`, not `""`. -/
theorem invoke_error_code_counterexample :
    envC5ce.actionResp 0 = .resp { status := 404, body := some bodyNotFoundEmptyCode } ∧
    bodyNotFoundEmptyCode.error_code = some "" ∧
    (update_serial_in_salesforce envC5ce reqW stTok).1 =
      .ok { success := false, message := "not found", salesforce_id := none,
            error_code := some "SF_404" } ∧
    (some "SF_404" : Option String) ≠ some "" := by
  refine ⟨rfl, rfl, by rfl, by decide⟩

/-- C5 amended.  For every `invoke` call whose final downstream response
parses as JSON but is not a 200 with `success` exactly `true`, `invoke`
returns failure with the body's `message` (or a default embedding the HTTP
status), the body's `caseId`, and as error code the body's `error_code`
field when present and non-empty, else the synthesized `SF_<status>` code
(`pyOrStr` is exactly this truthiness choice). -/
theorem invoke_failure_normalization (env : Env) (req : ActionRequest)
    (st st2 : St) (resp : ActionResponse) (b : SfBody)
    (hc : call_salesforce_terminal_action env (mkPayload req) st = (.ok resp, st2))
    (hb : resp.body = some b)
    (hns : ¬ (resp.status = 200 ∧ b.success = some true)) :
    update_serial_in_salesforce env req st =
      (.ok { success := false,
             message := b.message.getD (sfErrorDefaultMsg resp.status),
             salesforce_id := b.caseId,
             error_code := some (pyOrStr b.error_code (sfSynthCode resp.status)) }, st2) := by
  rw [invoke_of_call_ok env req st st2 resp hc]
  simp [normalize_sf_response, hb, hns]

/-- Witness for C5 (amended): a 404 with
`{"message":"not found","error_code":"SF_RECORD_NOT_FOUND"}` yields
`{success:false, message:"not found", errorCode:"SF_RECORD_NOT_FOUND"}`. -/
theorem invoke_failure_normalization_witness :
    update_serial_in_salesforce envC5w reqW stTok =
      (.ok { success := false,
             message := bodyNotFound.message.getD (sfErrorDefaultMsg 404),
             salesforce_id := bodyNotFound.caseId,
             error_code := some (pyOrStr bodyNotFound.error_code (sfSynthCode 404)) },
       stSent1) :=
  invoke_failure_normalization envC5w reqW stTok stSent1
    { status := 404, body := some bodyNotFound } bodyNotFound (by rfl) rfl (by decide)

/-- C6.  For every `invoke` call whose final downstream response body is not
parseable as JSON, regardless of its HTTP status, `invoke` returns failure
with the fixed diagnostic message embedding the raw HTTP status, no
reference id and error code `"SF_INVALID_JSON"`. -/
theorem invoke_invalid_json (env : Env) (req : ActionRequest)
    (st st2 : St) (resp : ActionResponse)
    (hc : call_salesforce_terminal_action env (mkPayload req) st = (.ok resp, st2))
    (hb : resp.body = none) :
    update_serial_in_salesforce env req st =
      (.ok { success := false, message := sfInvalidJsonMsg resp.status,
             salesforce_id := none, error_code := some "SF_INVALID_JSON" }, st2) := by
  rw [invoke_of_call_ok env req st st2 resp hc]
  simp [normalize_sf_response, hb]

/-- Witness for C6: an unparseable body under HTTP 200 still yields the
`SF_INVALID_JSON` failure. -/
theorem invoke_invalid_json_witness :
    update_serial_in_salesforce envC6w reqW stTok =
      (.ok { success := false, message := sfInvalidJsonMsg 200,
             salesforce_id := none, error_code := some "SF_INVALID_JSON" }, stSent1) :=
  invoke_invalid_json envC6w reqW stTok stSent1
    { status := 200, body := none } (by rfl) rfl

/-- C1 as stated is false: `invoke` does not absorb every failure.  With no
cached token and a token endpoint answering 500, the `TokenFetchError`
raised by `_get_salesforce_token` propagates out of
`update_serial_in_salesforce` (and it is not a `ConfigurationError`) — the
only `try` in the function wraps `response.json()`. -/
theorem invoke_propagation_counterexample :
    (update_serial_in_salesforce envC1ce reqW stEmpty).1 = .error .tokenFetchError ∧
    SfError.tokenFetchError ≠ SfError.configError :=
  ⟨by rfl, by decide⟩

/-- C1 amended.  `invoke` returns a NormalizedResult exactly when the action
call (with its single-retry logic) yields an HTTP response; every exception
raised below it — ConfigurationError, TokenFetchError, the token-body JSON
error and transport failures on either endpoint — propagates out of `invoke`
unchanged, nothing is converted inside `invoke` itself. -/
theorem invoke_propagation :
    (∀ (env : Env) (req : ActionRequest) (st st2 : St) (resp : ActionResponse),
       call_salesforce_terminal_action env (mkPayload req) st = (.ok resp, st2) →
       update_serial_in_salesforce env req st = (.ok (normalize_sf_response resp), st2)) ∧
    (∀ (env : Env) (req : ActionRequest) (st st2 : St) (e : SfError),
       call_salesforce_terminal_action env (mkPayload req) st = (.error e, st2) →
       update_serial_in_salesforce env req st = (.error e, st2)) :=
  ⟨fun env req st st2 resp hc => invoke_of_call_ok env req st st2 resp hc,
   fun env req st st2 e hc => invoke_of_call_err env req st st2 e hc⟩

/-- Witness for C1 (amended): a concrete run where the call yields a 200
response and `invoke` returns its normalization. -/
theorem invoke_propagation_witness :
    update_serial_in_salesforce envC1w reqW stTok =
      (.ok (normalize_sf_response { status := 200, body := some bodyOkX }), stSent1) :=
  invoke_propagation.1 envC1w reqW stTok stSent1
    { status := 200, body := some bodyOkX } (by rfl)

/-- C3 as stated is false in one corner: when the first downstream response
is 401 but the fresh token fetch fails, the identical payload is NOT resent
— the fetch's exception propagates after a single action POST.  Concretely:
first response 401, token endpoint answers 500, and `invoke` raises with
exactly one action request sent (the claim demands a resend, i.e. two). -/
theorem invoke_retry_counterexample :
    envC3ce.actionResp 0 = .resp { status := 401, body := none } ∧
    (update_serial_in_salesforce envC3ce reqW stTok).1 = .error .tokenFetchError ∧
    (update_serial_in_salesforce envC3ce reqW stTok).2.sent.length = 1 :=
  ⟨rfl, by rfl, by rfl⟩

/-- C3 amended.  (1) If the first downstream response is 401 and the fresh
token fetch succeeds, exactly one fresh token fetch is performed, the
Authorization header is rebuilt with the new token, the identical payload is
resent exactly once, and the retried outcome is final whatever its status
(the final state records exactly the two POSTs).  (2) A first response with
any status other than 401 triggers no retry.  (3) Unconditionally, at most
two action-endpoint requests are sent per `invoke`. -/
theorem invoke_retry_spec :
    (∀ (env : Env) (req : ActionRequest) (st st1 st2 : St) (tok1 tok2 : String)
       (r1 : ActionResponse),
       ensure_token env st = (.ok tok1, st1) →
       env.actionResp st1.sent.length = .resp r1 →
       r1.status = 401 →
       get_salesforce_token env (record_send st1 tok1 (mkPayload req)) = (.ok tok2, st2) →
       update_serial_in_salesforce env req st =
         (Except.map normalize_sf_response (outcome_result (env.actionResp st2.sent.length)),
          record_send st2 tok2 (mkPayload req)) ∧
       st2.nTok = st1.nTok + 1 ∧
       st2.sent = st1.sent ++ [{ auth := tok1, payload := mkPayload req }] ∧
       st2.SF_ACCESS_TOKEN = some tok2) ∧
    (∀ (env : Env) (req : ActionRequest) (st st1 : St) (tok1 : String)
       (r1 : ActionResponse),
       ensure_token env st = (.ok tok1, st1) →
       env.actionResp st1.sent.length = .resp r1 →
       r1.status ≠ 401 →
       update_serial_in_salesforce env req st =
         (.ok (normalize_sf_response r1), record_send st1 tok1 (mkPayload req))) ∧
    (∀ (env : Env) (req : ActionRequest) (st : St),
       (update_serial_in_salesforce env req st).2.sent.length ≤ st.sent.length + 2) := by
  refine ⟨?_, ?_, ?_⟩
  · intro env req st st1 st2 tok1 tok2 r1 h1 h2 h3 h4
    have hst2 := get_token_ok_state env (record_send st1 tok1 (mkPayload req)) tok2 st2 h4
    refine ⟨?_, ?_, ?_, ?_⟩
    · have hcall := call_first_401_fetch_ok env (mkPayload req) st st1 st2 tok1 tok2 r1
        h1 h2 h3 h4
      unfold update_serial_in_salesforce
      simp only [hcall]
      cases ho : env.actionResp st2.sent.length <;> simp [outcome_result, ho, Except.map]
    · simp [hst2, record_send]
    · simp [hst2, record_send]
    · simp [hst2, record_send]
  · intro env req st st1 tok1 r1 h1 h2 h3
    have hcall := call_first_not401 env (mkPayload req) st st1 tok1 r1 h1 h2 h3
    exact invoke_of_call_ok env req st _ r1 hcall
  · intro env req st
    rw [invoke_state_eq]
    exact call_sent_le env (mkPayload req) st

/-- Witness for C3 (amended): first response 401, fresh fetch yields `tok1`,
retry answers 200 — two POSTs, the second with the new token. -/
theorem invoke_retry_spec_witness :
    (update_serial_in_salesforce envC3w reqW stTok =
       (Except.map normalize_sf_response (outcome_result (envC3w.actionResp stC3mid.sent.length)),
        record_send stC3mid "tok1" (mkPayload reqW)) ∧
     stC3mid.nTok = stTok.nTok + 1 ∧
     stC3mid.sent = stTok.sent ++ [{ auth := "tok0", payload := mkPayload reqW }] ∧
     stC3mid.SF_ACCESS_TOKEN = some "tok1") :=
  invoke_retry_spec.1 envC3w reqW stTok stTok stC3mid "tok0" "tok1"
    { status := 401, body := none } (by rfl) (by rfl) rfl (by rfl)

/-- C7 as stated is false: the claim says a TokenFetchError is raised
exactly on a non-2xx status, but the code tests `resp.status_code != 200`.
A 201 response with a well-formed `access_token` makes the fetch raise. -/
theorem fetch_non200_counterexample :
    envC7ce.tokenResp 0 = .resp { status := 201, body := some tokenBody201 } ∧
    tokenBody201.access_token = some "tok201" ∧
    (get_salesforce_token envC7ce stEmpty).1 = .error .tokenFetchError :=
  ⟨rfl, rfl, by rfl⟩

/-- C7 amended.  `fetch()` raises ConfigurationError before any network call
(state untouched) when `client_id` or `client_secret` is absent or empty;
raises TokenFetchError exactly when the response status differs from 200 or
the body parses but lacks a non-empty `access_token`; and on every 200
response whose body carries a non-empty `access_token` it returns that
Credential and replaces the cache. -/
theorem fetch_spec :
    (∀ (env : Env) (st : St),
       (pyTruthy env.SF_CLIENT_ID = false ∨ pyTruthy env.SF_CLIENT_SECRET = false) →
       get_salesforce_token env st = (.error .configError, st)) ∧
    (∀ (env : Env) (st : St) (r : TokenResponse),
       pyTruthy env.SF_CLIENT_ID = true → pyTruthy env.SF_CLIENT_SECRET = true →
       env.tokenResp st.nTok = .resp r → r.status ≠ 200 →
       get_salesforce_token env st =
         (.error .tokenFetchError, { st with nTok := st.nTok + 1 })) ∧
    (∀ (env : Env) (st : St) (r : TokenResponse) (b : TokenBody),
       pyTruthy env.SF_CLIENT_ID = true → pyTruthy env.SF_CLIENT_SECRET = true →
       env.tokenResp st.nTok = .resp r → r.status = 200 → r.body = some b →
       (b.access_token = none ∨ b.access_token = some "") →
       get_salesforce_token env st =
         (.error .tokenFetchError, { st with nTok := st.nTok + 1 })) ∧
    (∀ (env : Env) (st : St) (r : TokenResponse) (b : TokenBody) (tok : String),
       pyTruthy env.SF_CLIENT_ID = true → pyTruthy env.SF_CLIENT_SECRET = true →
       env.tokenResp st.nTok = .resp r → r.status = 200 → r.body = some b →
       b.access_token = some tok → tok.isEmpty = false →
       get_salesforce_token env st =
         (.ok tok, { st with nTok := st.nTok + 1, SF_ACCESS_TOKEN := some tok })) := by
  refine ⟨?_, ?_, ?_, ?_⟩
  · intro env st h
    rcases h with h | h <;> simp [get_salesforce_token, h]
  · intro env st r hid hsec htok hst
    simp [get_salesforce_token, parse_token_outcome, hid, hsec, htok, hst]
  · intro env st r b hid hsec htok hst hb ha
    have hempty : ("" : String).isEmpty = true := rfl
    rcases ha with ha | ha <;>
      simp [get_salesforce_token, parse_token_outcome, hid, hsec, htok, hst, hb, ha, hempty]
  · intro env st r b tok hid hsec htok hst hb ha hemp
    simp [get_salesforce_token, parse_token_outcome, hid, hsec, htok, hst, hb, ha, hemp]

/-- Witness for C7 (amended): a 200 token response with `access_token`
`tokX` is returned and cached. -/
theorem fetch_spec_witness :
    get_salesforce_token envC7w stEmpty =
      (.ok "tokX", { stEmpty with nTok := stEmpty.nTok + 1, SF_ACCESS_TOKEN := some "tokX" }) :=
  fetch_spec.2.2.2 envC7w stEmpty { status := 200, body := some tokenBodyX }
    tokenBodyX "tokX" rfl rfl rfl rfl rfl rfl rfl

/-- C8.  The cached Credential is replaced only by a successful fetch:
`get()` (the lines 56-59 cache check) with a truthy cached token returns it
with the state — cache, token-POST count and trace — completely unchanged;
a failed fetch leaves the previously cached Credential exactly as it was;
a successful fetch replaces it wholesale with the new token. -/
theorem credential_cache_frame :
    (∀ (env : Env) (st : St) (t : String),
       st.SF_ACCESS_TOKEN = some t → t.isEmpty = false →
       ensure_token env st = (.ok t, st)) ∧
    (∀ (env : Env) (st : St) (e : SfError) (st' : St),
       get_salesforce_token env st = (.error e, st') →
       st'.SF_ACCESS_TOKEN = st.SF_ACCESS_TOKEN) ∧
    (∀ (env : Env) (st : St) (tok : String) (st' : St),
       get_salesforce_token env st = (.ok tok, st') →
       st'.SF_ACCESS_TOKEN = some tok) :=
  ⟨fun env st t hc ht => ensure_token_cached env st t hc ht,
   fun env st e st' h => (get_token_err_state env st e st' h).1,
   fun env st tok st' h => by rw [get_token_ok_state env st tok st' h]⟩

/-- Witness for C8: a cache hit in an environment whose network always
fails — nothing is fetched and the state is returned untouched. -/
theorem credential_cache_frame_witness :
    ensure_token envC8w stTok = (.ok "tok0", stTok) :=
  credential_cache_frame.1 envC8w stTok "tok0" rfl rfl

/-- C9 (implicit).  The configuration check lives only inside the token
fetch: with a Credential already cached and a first downstream response that
is not 401, `invoke` returns a NormalizedResult using the cached token even
when both `SF_CLIENT_ID` and `SF_CLIENT_SECRET` are absent — no
ConfigurationError is raised. -/
theorem config_check_only_in_fetch (env : Env) (req : ActionRequest) (st : St)
    (t : String) (r : ActionResponse)
    (hcache : st.SF_ACCESS_TOKEN = some t) (ht : t.isEmpty = false)
    (hid : env.SF_CLIENT_ID = none) (hsec : env.SF_CLIENT_SECRET = none)
    (hr : env.actionResp st.sent.length = .resp r) (hs : r.status ≠ 401) :
    update_serial_in_salesforce env req st =
      (.ok (normalize_sf_response r), record_send st t (mkPayload req)) := by
  have h1 := ensure_token_cached env st t hcache ht
  have hcall := call_first_not401 env (mkPayload req) st st t r h1 hr hs
  exact invoke_of_call_ok env req st _ r hcall

/-- Witness for C9: both configuration values absent, token cached, action
endpoint answers 200 — `invoke` succeeds with the cached token on the
wire. -/
theorem config_check_only_in_fetch_witness :
    update_serial_in_salesforce envC9w reqW stTok =
      (.ok (normalize_sf_response { status := 200, body := some bodyOkNoCase }),
       record_send stTok "tok0" (mkPayload reqW)) :=
  config_check_only_in_fetch envC9w reqW stTok "tok0"
    { status := 200, body := some bodyOkNoCase } rfl rfl rfl rfl rfl (by decide)

/-- C10 (implicit).  A 200 token response whose body carries
`access_token: ""` is treated like a missing field: the fetch raises the
malformed-response TokenFetchError and the cache is left unchanged. -/
theorem fetch_empty_access_token (env : Env) (st : St) (r : TokenResponse)
    (b : TokenBody)
    (hid : pyTruthy env.SF_CLIENT_ID = true)
    (hsec : pyTruthy env.SF_CLIENT_SECRET = true)
    (htok : env.tokenResp st.nTok = .resp r) (hst : r.status = 200)
    (hb : r.body = some b) (ha : b.access_token = some "") :
    get_salesforce_token env st =
      (.error .tokenFetchError, { st with nTok := st.nTok + 1 }) ∧
    (({ st with nTok := st.nTok + 1 } : St).SF_ACCESS_TOKEN = st.SF_ACCESS_TOKEN) := by
  have hempty : ("" : String).isEmpty = true := rfl
  refine ⟨?_, rfl⟩
  simp [get_salesforce_token, parse_token_outcome, hid, hsec, htok, hst, hb, ha, hempty]

/-- Witness for C10: the concrete `{"access_token": ""}` body. -/
theorem fetch_empty_access_token_witness :
    (get_salesforce_token envC10w stEmpty =
       (.error .tokenFetchError, { stEmpty with nTok := stEmpty.nTok + 1 })) ∧
    (({ stEmpty with nTok := stEmpty.nTok + 1 } : St).SF_ACCESS_TOKEN =
       stEmpty.SF_ACCESS_TOKEN) :=
  fetch_empty_access_token envC10w stEmpty
    { status := 200, body := some tokenBodyEmpty } tokenBodyEmpty
    rfl rfl rfl rfl rfl rfl

end Mdw
